import Mathlib

/-!
# NodeGoat session handler (`app/routes/session.js`)

A shallow embedding of `SessionHandler`: the signup validator with the
regular expressions it tests, and the request handlers as functions from the
request and the answers of the external collaborators (user store, bcrypt,
session middleware) to the new session and the trace of calls and responses.
-/

namespace NodeGoat

/-! ## JavaScript values that reach the handlers -/

/-- A UTF-16 code unit: the element of a JavaScript string. -/
abbrev CodeUnit := Fin 65536

/-- A JavaScript string: a sequence of UTF-16 code units. -/
abbrev JSString := List CodeUnit

/-- UTF-16 encoding of one Unicode scalar value. -/
def utf16Char (c : Char) : JSString :=
  if c.toNat < 65536 then [Fin.ofNat c.toNat]
  else [Fin.ofNat (55296 + (c.toNat - 65536) / 1024), Fin.ofNat (56320 + (c.toNat - 65536) % 1024)]

/-- The JavaScript string written by a source literal. -/
def utf16 (s : String) : JSString :=
  s.toList.flatMap utf16Char

/-- A field of `req.body`: a string, or `undefined` when the field is missing,
or `null` (JSON bodies). Numbers, arrays and objects are outside the model. -/
inductive JSVal where
  | undefined
  | null
  | str (s : JSString)
  deriving DecidableEq, Repr

/-- The abstract operation `ToString` on the modelled values. -/
def JSVal.toStr : JSVal → JSString
  | .undefined => utf16 "undefined"
  | .null => utf16 "null"
  | .str s => s

/-- The abstract operation `ToBoolean`: `undefined`, `null` and `""` are falsy. -/
def JSVal.truthy : JSVal → Bool
  | .undefined => false
  | .null => false
  | .str s => !s.isEmpty

/-! ## Regular expressions

The five patterns of `validateSignup` are built from character classes,
concatenation, greedy bounded repetition and the assertions `^` and `$`. The
matcher follows the continuation-passing semantics of ECMA-262 (22.2.2):
a matcher takes the current state and a continuation and reports whether
the rest of the pattern can succeed. No pattern carries a flag, so a class
consumes one code unit and the assertions look at the ends of the input.
-/

/-- A pattern without flags. -/
inductive RegExp where
  /-- One code unit of a class: `.`, `\S`, or a literal. -/
  | cls (p : CodeUnit → Bool)
  /-- The assertion `^`. -/
  | bol
  /-- The assertion `$`. -/
  | eol
  /-- Concatenation of two terms. -/
  | seq (a b : RegExp)
  /-- Greedy quantifier `a{min,max}`; `max = none` is unbounded (`+` is `{1,}`). -/
  | rep (a : RegExp) (min : Nat) (max : Option Nat)

/-- Matcher state: the index reached in the input and the code units after it. -/
structure MatchState where
  endIndex : Nat
  rest : JSString

/-- A continuation: does the remainder of the pattern match from this state. -/
abbrev Continuation := MatchState → Bool

/-- A matcher, as produced by compiling a pattern node. -/
abbrev Matcher := MatchState → Continuation → Bool

/-- The abstract operation RepeatMatcher for a greedy quantifier. The extra
first argument bounds the number of iterations; `min + rest.length + 1`
suffices because an iteration either lowers `min` or consumes input. -/
def repeatMatcher (m : Matcher) : Nat → Nat → Option Nat → MatchState → Continuation → Bool
  | 0, _, _, _, _ => false
  | fuel + 1, min, max, x, c =>
    if max = some 0 then c x
    else
      let d : Continuation := fun y =>
        if min = 0 ∧ y.endIndex = x.endIndex then false
        else repeatMatcher m fuel (min - 1) (max.map (· - 1)) y c
      if min ≠ 0 then m x d
      else m x d || c x

/-- Compile a pattern to its matcher. -/
def RegExp.matcher : RegExp → Matcher
  | .cls p => fun x c =>
    match x.rest with
    | [] => false
    | ch :: t => p ch && c ⟨x.endIndex + 1, t⟩
  | .bol => fun x c => x.endIndex == 0 && c x
  | .eol => fun x c => x.rest.isEmpty && c x
  | .seq a b => fun x c => a.matcher x (fun y => b.matcher y c)
  | .rep a min max => fun x c =>
    repeatMatcher a.matcher (min + x.rest.length + 1) min max x c

/-- `RegExp.prototype.test` on a string: RegExpBuiltinExec tries every start
index from 0 up to the length of the input. -/
def RegExp.test (r : RegExp) (s : JSString) : Bool :=
  (List.range (s.length + 1)).any fun i => r.matcher ⟨i, s.drop i⟩ (fun _ => true)

/-- LineTerminator code points: LF, CR, LS, PS. -/
def isLineTerminator (c : CodeUnit) : Bool :=
  c == 10 || c == 13 || c == 8232 || c == 8233

/-- The class `\s`: WhiteSpace and LineTerminator code points. -/
def isWhiteSpace (c : CodeUnit) : Bool :=
  c == 9 || c == 10 || c == 11 || c == 12 || c == 13 || c == 32 || c == 160 ||
  c == 5760 || (8192 ≤ c.val && c.val ≤ 8202) || c == 8232 || c == 8233 ||
  c == 8239 || c == 8287 || c == 12288 || c == 65279

/-- The atom `.` without the `s` flag. -/
def dot : RegExp := .cls fun c => !isLineTerminator c

/-- The class `[\S]`. -/
def nonSpace : RegExp := .cls fun c => !isWhiteSpace c

/-- A literal pattern character. -/
def lit (ch : Char) : RegExp := .cls fun c => c == Fin.ofNat ch.toNat

/-- The pattern `/^.{1,20}$/`. -/
def USER_RE : RegExp := .seq .bol (.seq (.rep dot 1 (some 20)) .eol)

/-- The pattern `/^.{1,100}$/`. -/
def FNAME_RE : RegExp := .seq .bol (.seq (.rep dot 1 (some 100)) .eol)

/-- The pattern `/^.{1,100}$/`. -/
def LNAME_RE : RegExp := .seq .bol (.seq (.rep dot 1 (some 100)) .eol)

/-- The pattern `/^[\S]+@[\S]+\.[\S]+$/`. -/
def EMAIL_RE : RegExp :=
  .seq .bol (.seq (.rep nonSpace 1 none) (.seq (lit '@') (.seq (.rep nonSpace 1 none)
    (.seq (lit '.') (.seq (.rep nonSpace 1 none) .eol)))))

/-- The pattern `/^.{8,20}$/`. -/
def PASS_RE : RegExp := .seq .bol (.seq (.rep dot 8 (some 20)) .eol)

/-! ## Signup validation -/

/-- The `errors` object built by `handleSignup` and filled by `validateSignup`. -/
structure Errors where
  userName : JSVal
  email : JSVal
  userNameError : JSVal
  emailError : JSVal
  firstNameError : JSVal
  lastNameError : JSVal
  passwordError : JSVal
  verifyError : JSVal
  deriving DecidableEq, Repr

/-- The function `validateSignup`: the returned boolean and the `errors` object
after the call. -/
def validateSignup (userName firstName lastName password verify email : JSVal)
    (errors : Errors) : Bool × Errors :=
  let errors := { errors with userNameError := .str (utf16 "") }
  let errors := { errors with firstNameError := .str (utf16 "") }
  let errors := { errors with lastNameError := .str (utf16 "") }
  let errors := { errors with passwordError := .str (utf16 "") }
  let errors := { errors with verifyError := .str (utf16 "") }
  let errors := { errors with emailError := .str (utf16 "") }
  if !USER_RE.test userName.toStr then
    (false, { errors with userNameError := .str (utf16 "Invalid user name.") })
  else if !FNAME_RE.test firstName.toStr then
    (false, { errors with firstNameError := .str (utf16 "Invalid first name.") })
  else if !LNAME_RE.test lastName.toStr then
    (false, { errors with lastNameError := .str (utf16 "Invalid last name.") })
  else if !PASS_RE.test password.toStr then
    (false, { errors with passwordError := .str (utf16 "Password must be 8–20 characters.") })
  else if password ≠ verify then
    (false, { errors with verifyError := .str (utf16 "Passwords do not match.") })
  else if email.truthy && !EMAIL_RE.test email.toStr then
    (false, { errors with emailError := .str (utf16 "Invalid email address.") })
  else
    (true, errors)

/-- The six rules of `validateSignup` in the order the code tests them: for
each, whether the submission passes it. -/
def signupRules (userName firstName lastName password verify email : JSVal) : List Bool :=
  [USER_RE.test userName.toStr, FNAME_RE.test firstName.toStr, LNAME_RE.test lastName.toStr,
    PASS_RE.test password.toStr, decide (password = verify),
    !(email.truthy && !EMAIL_RE.test email.toStr)]

/-- The six error fields in the order of the rules they report. -/
def Errors.fields (e : Errors) : List JSVal :=
  [e.userNameError, e.firstNameError, e.lastNameError, e.passwordError, e.verifyError,
    e.emailError]

/-! ## Collaborators of the handlers -/

/-- A store-assigned user identifier (`user._id`), read as a sequence number. -/
structure Id where
  raw : Nat
  deriving DecidableEq, Repr

/-- The abstract operation `ToBoolean` on an identifier: of the numbers only 0
is falsy. -/
def Id.truthy (id : Id) : Bool :=
  id.raw != 0

/-- An error value handed to a callback or thrown by an awaited call. -/
structure JSError where
  message : String
  deriving DecidableEq, Repr

/-- A user document as the handlers read it. -/
structure User where
  _id : Id
  userName : JSVal
  firstName : JSVal
  lastName : JSVal
  password : JSString
  email : JSVal
  isAdmin : Bool
  deriving DecidableEq, Repr

/-- The session record `req.session`; `userId` is `none` when the property is
not set. -/
structure Session where
  userId : Option Id
  deriving DecidableEq, Repr

/-- The test `if (req.session.userId)`: the identifier when the property is set
and truthy, `none` when it is unset or falsy. -/
def Session.truthyUserId (session : Session) : Option Id :=
  match session.userId with
  | some userId => if userId.truthy then some userId else none
  | none => none

/-- The interface of `UserDAO` (`app/data/user-dao.js`, not among the sources)
over a store state `σ`. `getUserByUserName` is awaited, so it resolves to a
document or nothing, or rejects. `getUserById` and `addUser` call back once
with `(err, doc)`. -/
structure UserDAO (σ : Type) where
  getUserByUserName : JSVal → σ → Except JSError (Option User)
  getUserById : Id → σ → Option JSError × Option User
  addUser : JSVal → JSVal → JSVal → JSString → JSVal → σ → (Option JSError × Option User) × σ

/-- The two bcrypt calls, both awaited. -/
structure Bcrypt where
  compare : JSVal → JSString → Except JSError Bool
  hash : JSVal → Nat → Except JSError JSString

/-- What `prepareUserData` takes from outside: the two values of
`Math.floor((Math.random() * 40) + 1)` (floating point is not modelled) and
the error argument of the `allocationsDAO.update` callback. -/
structure AllocationsEnv where
  stocks : Nat
  funds : Nat
  update : Id → Nat → Nat → Int → Option JSError

/-- The object handed to `res.render`; every call also passes the
configuration constant `environmentalScripts` unchanged. -/
inductive Locals where
  | login (userName password loginError : JSVal)
  | signupForm (userName password passwordError email userNameError emailError verifyError : JSVal)
  | signup (errors : Errors)
  | dashboard (doc : User) (userId : Id)
  deriving DecidableEq, Repr

/-- What a handler does to the outside, in order. -/
inductive Event where
  | getUserByUserName (userName : JSVal)
  | getUserById (id : Id)
  | addUser (userName firstName lastName : JSVal) (password : JSString) (email : JSVal)
  | bcryptCompare (password : JSVal) (hash : JSString)
  | bcryptHash (password : JSVal) (rounds : Nat)
  | allocationsUpdate (userId : Id) (stocks funds : Nat) (bonds : Int)
  | regenerate
  | destroy
  | redirect (path : String)
  | render (view : String) (locals : Locals)
  | next
  | nextErr (err : JSError)
  | typeError
  deriving DecidableEq, Repr

/-- A response written for the request: a redirect or a rendered page. -/
def Event.isPage : Event → Bool
  | .redirect _ => true
  | .render .. => true
  | _ => false

/-- The session after the handler and the trace of what it did. -/
structure Outcome where
  session : Session
  trace : List Event
  deriving DecidableEq, Repr

/-- The fields of `req.body` read by `handleLoginRequest`. -/
structure LoginBody where
  userName : JSVal
  password : JSVal

/-- The fields of `req.body` read by `handleSignup`. -/
structure SignupBody where
  email : JSVal
  userName : JSVal
  firstName : JSVal
  lastName : JSVal
  password : JSVal
  verify : JSVal

/-! ## The handlers -/

/-- The helper `prepareUserData`: the allocation update and, when its callback
gets an error, `next(err)`. -/
def prepareUserData (alloc : AllocationsEnv) (user : User) : List Event :=
  let stocks := alloc.stocks
  let funds := alloc.funds
  let bonds : Int := 100 - ((stocks : Int) + (funds : Int))
  .allocationsUpdate user._id stocks funds bonds ::
    match alloc.update user._id stocks funds bonds with
    | some err => [.nextErr err]
    | none => []

/-- The handler `isAdminUserMiddleware`. -/
def isAdminUserMiddleware {σ : Type} (dao : UserDAO σ) (db : σ) (session : Session) : Outcome :=
  match session.truthyUserId with
  | some userId =>
    match dao.getUserById userId db with
    | (_, some user) =>
      if user.isAdmin then ⟨session, [.getUserById userId, .next]⟩
      else ⟨session, [.getUserById userId, .redirect "/login"]⟩
    | (_, none) => ⟨session, [.getUserById userId, .redirect "/login"]⟩
  | none => ⟨session, [.redirect "/login"]⟩

/-- The handler `isLoggedInMiddleware`. -/
def isLoggedInMiddleware (session : Session) : Outcome :=
  match session.truthyUserId with
  | some _ => ⟨session, [.next]⟩
  | none => ⟨session, [.redirect "/login"]⟩

/-- The handler `displayLoginPage`. -/
def displayLoginPage (session : Session) : Outcome :=
  ⟨session, [.render "login" (.login (.str (utf16 "")) (.str (utf16 "")) (.str (utf16 "")))]⟩

/-- The handler `handleLoginRequest`. `regenerate` replaces the session by an
empty one before its callback writes `userId`. -/
def handleLoginRequest {σ : Type} (dao : UserDAO σ) (bcrypt : Bcrypt) (db : σ)
    (session : Session) (body : LoginBody) : Outcome :=
  let userName := body.userName
  let password := body.password
  match dao.getUserByUserName userName db with
  | .error err => ⟨session, [.getUserByUserName userName, .nextErr err]⟩
  | .ok none =>
    ⟨session, [.getUserByUserName userName,
      .render "login" (.login userName (.str (utf16 "")) (.str (utf16 "Invalid username")))]⟩
  | .ok (some user) =>
    match bcrypt.compare password user.password with
    | .error err =>
      ⟨session, [.getUserByUserName userName, .bcryptCompare password user.password, .nextErr err]⟩
    | .ok false =>
      ⟨session, [.getUserByUserName userName, .bcryptCompare password user.password,
        .render "login" (.login userName (.str (utf16 "")) (.str (utf16 "Invalid password")))]⟩
    | .ok true =>
      ⟨{ userId := some user._id },
        [.getUserByUserName userName, .bcryptCompare password user.password, .regenerate,
          .redirect (if user.isAdmin then "/benefits" else "/dashboard")]⟩

/-- The handler `displayLogoutPage`: the session is destroyed, so the next
request of the client starts on an empty session. `server.js` configures no
session store, and the default in-memory store does not fail. -/
def displayLogoutPage (_session : Session) : Outcome :=
  ⟨{ userId := none }, [.destroy, .redirect "/"]⟩

/-- The handler `displaySignupPage`. -/
def displaySignupPage (session : Session) : Outcome :=
  ⟨session, [.render "signup" (.signupForm (.str (utf16 "")) (.str (utf16 "")) (.str (utf16 ""))
    (.str (utf16 "")) (.str (utf16 "")) (.str (utf16 "")) (.str (utf16 "")))]⟩

/-- The handler `handleSignup`, with the store after the request. -/
def handleSignup {σ : Type} (dao : UserDAO σ) (bcrypt : Bcrypt) (alloc : AllocationsEnv) (db : σ)
    (session : Session) (body : SignupBody) : Outcome × σ :=
  let errors : Errors :=
    { userName := body.userName, email := body.email,
      userNameError := .str (utf16 ""), emailError := .str (utf16 ""),
      firstNameError := .str (utf16 ""), lastNameError := .str (utf16 ""),
      passwordError := .str (utf16 ""), verifyError := .str (utf16 "") }
  match validateSignup body.userName body.firstName body.lastName body.password body.verify
      body.email errors with
  | (false, errors) => (⟨session, [.render "signup" (.signup errors)]⟩, db)
  | (true, errors) =>
    match dao.getUserByUserName body.userName db with
    | .error err => (⟨session, [.getUserByUserName body.userName, .nextErr err]⟩, db)
    | .ok (some _) =>
      let errors := { errors with userNameError := .str (utf16 "User name already in use.") }
      (⟨session, [.getUserByUserName body.userName, .render "signup" (.signup errors)]⟩, db)
    | .ok none =>
      match bcrypt.hash body.password 10 with
      | .error err =>
        (⟨session, [.getUserByUserName body.userName, .bcryptHash body.password 10,
          .nextErr err]⟩, db)
      | .ok hashedPassword =>
        let called : List Event :=
          [.getUserByUserName body.userName, .bcryptHash body.password 10,
            .addUser body.userName body.firstName body.lastName hashedPassword body.email]
        match dao.addUser body.userName body.firstName body.lastName hashedPassword body.email db with
        | ((some err, _), db) => (⟨session, called ++ [.nextErr err]⟩, db)
        | ((none, none), db) => (⟨session, called ++ [.typeError]⟩, db)
        | ((none, some user), db) =>
          (⟨{ userId := some user._id },
            called ++ prepareUserData alloc user ++
              [.regenerate, .render "dashboard" (.dashboard user user._id)]⟩, db)

/-- The handler `displayWelcomePage`. With no error and no document the
assignment `doc.userId = ...` throws a TypeError inside the callback. -/
def displayWelcomePage {σ : Type} (dao : UserDAO σ) (db : σ) (session : Session) : Outcome :=
  match session.truthyUserId with
  | none => ⟨session, [.redirect "/login"]⟩
  | some userId =>
    match dao.getUserById userId db with
    | (some err, _) => ⟨session, [.getUserById userId, .nextErr err]⟩
    | (none, none) => ⟨session, [.getUserById userId, .typeError]⟩
    | (none, some doc) =>
      ⟨session, [.getUserById userId, .render "dashboard" (.dashboard doc userId)]⟩

/-! ## The handlers over the store of the specification -/

/-- Modelled from the spec: the state behind the Credential Store Accessor
(`app/data/user-dao.js` is not among the sources): the user records, created
at signup and never deleted. -/
structure Store where
  users : List User
  deriving DecidableEq, Repr

/-- The store-layer errors of one request: for each accessor operation, the
error it reports, if any. -/
structure Faults where
  getUserByUserName : Option JSError
  getUserById : Option JSError
  addUser : Option JSError

/-- Modelled from the spec: the Credential Store Accessor, whose code
(`app/data/user-dao.js`) is not among the sources. `getUserByUserName` is an
exact-match lookup, `getUserById` a lookup by identifier, `addUser` inserts a
new record and returns it with its assigned identifier without checking
uniqueness; a store error is propagated to the caller. How an identifier is
assigned is left open (`assignId`); the new record carries no admin flag. -/
def specDAO (assignId : List User → Id) (faults : Faults) : UserDAO Store where
  getUserByUserName userName db :=
    match faults.getUserByUserName with
    | some err => .error err
    | none => .ok (db.users.find? fun u => decide (u.userName = userName))
  getUserById id db :=
    match faults.getUserById with
    | some err => (some err, none)
    | none => (none, db.users.find? fun u => decide (u._id = id))
  addUser userName firstName lastName password email db :=
    match faults.addUser with
    | some err => ((some err, none), db)
    | none =>
      let user : User :=
        { _id := assignId db.users, userName := userName, firstName := firstName,
          lastName := lastName, password := password, email := email, isAdmin := false }
      ((none, some user), { users := db.users ++ [user] })

/-- An entry point of `SessionHandler` with the request body it reads. -/
inductive Request where
  | isAdminUserMiddleware
  | isLoggedInMiddleware
  | displayLoginPage
  | handleLoginRequest (body : LoginBody)
  | displayLogoutPage
  | displaySignupPage
  | handleSignup (body : SignupBody)
  | displayWelcomePage

/-- What the environment answers during one request. -/
structure StepEnv where
  faults : Faults
  bcrypt : Bcrypt
  alloc : AllocationsEnv

/-- A state of the transition system: the user store and the session. -/
structure SysState where
  store : Store
  session : Session

/-- One request handled on a state. -/
def step (assignId : List User → Id) (st : SysState) (inp : Request × StepEnv) : SysState :=
  let dao := specDAO assignId inp.2.faults
  match inp.1 with
  | .isAdminUserMiddleware => ⟨st.store, (isAdminUserMiddleware dao st.store st.session).session⟩
  | .isLoggedInMiddleware => ⟨st.store, (isLoggedInMiddleware st.session).session⟩
  | .displayLoginPage => ⟨st.store, (displayLoginPage st.session).session⟩
  | .handleLoginRequest body =>
    ⟨st.store, (handleLoginRequest dao inp.2.bcrypt st.store st.session body).session⟩
  | .displayLogoutPage => ⟨st.store, (displayLogoutPage st.session).session⟩
  | .displaySignupPage => ⟨st.store, (displaySignupPage st.session).session⟩
  | .handleSignup body =>
    let r := handleSignup dao inp.2.bcrypt inp.2.alloc st.store st.session body
    ⟨r.2, r.1.session⟩
  | .displayWelcomePage => ⟨st.store, (displayWelcomePage dao st.store st.session).session⟩

/-- A sequence of requests handled from a state. -/
def run (assignId : List User → Id) (st : SysState) (inps : List (Request × StepEnv)) : SysState :=
  inps.foldl (step assignId) st

/-- The request is a login whose lookup returns a user with identifier `i`
and whose password hash-compare succeeds. -/
def LoginWrites (assignId : List User → Id) (st : SysState) (inp : Request × StepEnv)
    (i : Id) : Prop :=
  ∃ body u, inp.1 = .handleLoginRequest body ∧
    (specDAO assignId inp.2.faults).getUserByUserName body.userName st.store = .ok (some u) ∧
    inp.2.bcrypt.compare body.password u.password = .ok true ∧ u._id = i

/-- The request is a signup that passes validation and whose `addUser`
inserts a record with identifier `i`. -/
def SignupWrites (assignId : List User → Id) (st : SysState) (inp : Request × StepEnv)
    (i : Id) : Prop :=
  ∃ body hashedPassword u, inp.1 = .handleSignup body ∧
    (∀ errors, (validateSignup body.userName body.firstName body.lastName body.password
      body.verify body.email errors).1 = true) ∧
    inp.2.bcrypt.hash body.password 10 = .ok hashedPassword ∧
    (specDAO assignId inp.2.faults).addUser body.userName body.firstName body.lastName
      hashedPassword body.email st.store = ((none, some u), (step assignId st inp).store) ∧
    u ∈ (step assignId st inp).store.users ∧ u._id = i

/-! ## Collaborators used in the worked examples -/

/-- A stand-in for bcrypt: the hash is the password behind a marker. -/
def demoBcrypt : Bcrypt where
  compare password hash := .ok (decide (utf16 "$2b$" ++ password.toStr = hash))
  hash password _ := .ok (utf16 "$2b$" ++ password.toStr)

/-- A request during which the store reports no error. -/
def noFaults : Faults := ⟨none, none, none⟩

/-- Identifiers assigned as a sequence number. -/
def demoAssignId (users : List User) : Id := ⟨users.length + 1⟩

/-- The user of the example in the specification. -/
def alice : User :=
  { _id := ⟨1⟩, userName := .str (utf16 "alice"), firstName := .str (utf16 "Alice"),
    lastName := .str (utf16 "Liddell"), password := utf16 "$2b$Sup3rSecr3t!",
    email := .str (utf16 "alice@example.com"), isAdmin := false }

/-- A store holding one user. -/
def demoStore : Store := ⟨[alice]⟩

/-- An allocation update that succeeds. -/
def demoAlloc : AllocationsEnv := ⟨10, 20, fun _ _ _ _ => none⟩

/-- The signup body of the example user. -/
def aliceSignup : SignupBody :=
  { email := .str (utf16 "alice@example.com"), userName := .str (utf16 "alice"),
    firstName := .str (utf16 "Alice"), lastName := .str (utf16 "Liddell"),
    password := .str (utf16 "Sup3rSecr3t!"), verify := .str (utf16 "Sup3rSecr3t!") }

/-- A signup, a logout and a login of the example user, with no store error. -/
def demoRequests : List (Request × StepEnv) :=
  [(.handleSignup aliceSignup, ⟨noFaults, demoBcrypt, demoAlloc⟩),
    (.displayLogoutPage, ⟨noFaults, demoBcrypt, demoAlloc⟩),
    (.handleLoginRequest ⟨.str (utf16 "alice"), .str (utf16 "Sup3rSecr3t!")⟩,
      ⟨noFaults, demoBcrypt, demoAlloc⟩)]

/-! ## The rules of the specification -/

/-- No code unit of the string is a line terminator. -/
def NoLineTerminator (s : JSString) : Prop :=
  ∀ c ∈ s, isLineTerminator c = false

/-- The shape `<non-whitespace>+ '@' <non-whitespace>+ '.' <non-whitespace>+`. -/
def EmailShape (s : JSString) : Prop :=
  ∃ a b c : JSString, a ≠ [] ∧ b ≠ [] ∧ c ≠ [] ∧
    (∀ x ∈ a, isWhiteSpace x = false) ∧ (∀ x ∈ b, isWhiteSpace x = false) ∧
    (∀ x ∈ c, isWhiteSpace x = false) ∧ s = a ++ utf16 "@" ++ b ++ utf16 "." ++ c

/-- The acceptance rule in the words of the specification: lengths, equality
of password and confirmation, and the email shape. -/
def SpecAccepts (userName firstName lastName password verify email : JSString) : Prop :=
  (1 ≤ userName.length ∧ userName.length ≤ 20) ∧
  (1 ≤ firstName.length ∧ firstName.length ≤ 100) ∧
  (1 ≤ lastName.length ∧ lastName.length ≤ 100) ∧
  (8 ≤ password.length ∧ password.length ≤ 20) ∧
  password = verify ∧
  (email = [] ∨ EmailShape email)

/-- The acceptance rule of the patterns: the lengths count UTF-16 code units
and `.` takes no line terminator. -/
def PatternAccepts (userName firstName lastName password verify email : JSString) : Prop :=
  (1 ≤ userName.length ∧ userName.length ≤ 20 ∧ NoLineTerminator userName) ∧
  (1 ≤ firstName.length ∧ firstName.length ≤ 100 ∧ NoLineTerminator firstName) ∧
  (1 ≤ lastName.length ∧ lastName.length ≤ 100 ∧ NoLineTerminator lastName) ∧
  (8 ≤ password.length ∧ password.length ≤ 20 ∧ NoLineTerminator password) ∧
  password = verify ∧
  (email = [] ∨ EmailShape email)


/-! ## The patterns of `validateSignup` -/

/-- A class fails at the end of the input. -/
theorem cls_matcher_nil (p : CodeUnit → Bool) (i : Nat) (c : Continuation) :
    (RegExp.cls p).matcher ⟨i, []⟩ c = false := rfl

/-- A class consumes one code unit of its set. -/
theorem cls_matcher_cons (p : CodeUnit → Bool) (i : Nat) (ch : CodeUnit) (t : JSString)
    (c : Continuation) :
    (RegExp.cls p).matcher ⟨i, ch :: t⟩ c = (p ch && c ⟨i + 1, t⟩) := rfl

/-- The upper bound of a quantifier after one iteration. -/
theorem bound_pred (max : Option Nat) (h0 : max ≠ some 0) (n : Nat) :
    (∀ M, max.map (· - 1) = some M → n ≤ M) ↔ (∀ M, max = some M → n + 1 ≤ M) := by
  cases max with
  | none => simp
  | some M' =>
    have : M' ≠ 0 := fun h => h0 (by rw [h])
    simp only [Option.map_some', Option.some.injEq, forall_eq']
    omega

/-- Splitting the number of iterations of a class over a non-empty input. -/
theorem iterations_cons (p : CodeUnit → Bool) (min : Nat) (max : Option Nat) (h0 : max ≠ some 0)
    (i : Nat) (ch : CodeUnit) (t : JSString) (c : Continuation) :
    (∃ n, min ≤ n ∧ (∀ M, max = some M → n ≤ M) ∧ n ≤ (ch :: t).length ∧
        (∀ a ∈ (ch :: t).take n, p a = true) ∧ c ⟨i + n, (ch :: t).drop n⟩ = true) ↔
      (min = 0 ∧ c ⟨i, ch :: t⟩ = true) ∨
      (p ch = true ∧ ∃ n, min - 1 ≤ n ∧ (∀ M, max.map (· - 1) = some M → n ≤ M) ∧ n ≤ t.length ∧
        (∀ a ∈ t.take n, p a = true) ∧ c ⟨i + 1 + n, t.drop n⟩ = true) := by
  constructor
  · rintro ⟨n, h1, h2, h3, h4, h5⟩
    cases n with
    | zero => left; exact ⟨by omega, by simpa using h5⟩
    | succ n =>
      right
      refine ⟨h4 ch (by simp), n, by omega, (bound_pred max h0 n).2 h2, by simpa using h3, ?_, ?_⟩
      · intro a ha
        exact h4 a (by simp [ha])
      · have e : i + 1 + n = i + (n + 1) := by omega
        rw [e]; simpa using h5
  · rintro (⟨hmin, hc⟩ | ⟨hp, n, h1, h2, h3, h4, h5⟩)
    · exact ⟨0, by omega, fun M _ => Nat.zero_le M, Nat.zero_le _, by simp, by simpa using hc⟩
    · refine ⟨n + 1, by omega, (bound_pred max h0 n).1 h2, by simpa using h3, ?_, ?_⟩
      · intro a ha
        simp only [List.take_succ_cons, List.mem_cons] at ha
        rcases ha with rfl | ha
        · exact hp
        · exact h4 a ha
      · have e : i + 1 + n = i + (n + 1) := by omega
        rw [e] at h5; simpa using h5

/-- With enough iterations allowed, a quantified class matches exactly when some
number of leading code units within the bounds lies in the class and the
continuation accepts what follows. -/
theorem repeatMatcher_cls (p : CodeUnit → Bool) :
    ∀ (fuel min : Nat) (max : Option Nat) (i : Nat) (rest : JSString) (c : Continuation),
      min + rest.length < fuel → (∀ M, max = some M → min ≤ M) →
      (repeatMatcher (RegExp.cls p).matcher fuel min max ⟨i, rest⟩ c = true ↔
        ∃ n, min ≤ n ∧ (∀ M, max = some M → n ≤ M) ∧ n ≤ rest.length ∧
          (∀ ch ∈ rest.take n, p ch = true) ∧ c ⟨i + n, rest.drop n⟩ = true) := by
  intro fuel
  induction fuel with
  | zero => intro min max i rest c h; omega
  | succ fuel ih =>
    intro min max i rest c hfuel hmax
    unfold repeatMatcher
    by_cases h0 : max = some 0
    · have hmin : min = 0 := by have := hmax 0 h0; omega
      subst hmin
      simp only [h0, if_true]
      constructor
      · intro hc
        exact ⟨0, le_refl _, by simp, Nat.zero_le _, by simp, by simpa using hc⟩
      · rintro ⟨n, -, hn, -, -, hc⟩
        have : n = 0 := by have := hn 0 rfl; omega
        subst this
        simpa using hc
    · simp only [h0, if_false]
      cases rest with
      | nil =>
        simp only [cls_matcher_nil, Bool.false_or]
        by_cases hmin : min = 0
        · subst hmin
          simp only [ne_eq, not_true_eq_false, if_false]
          constructor
          · intro hc
            exact ⟨0, le_refl _, fun M _ => Nat.zero_le M, Nat.zero_le _, by simp, by simpa using hc⟩
          · rintro ⟨n, -, -, hn, -, hc⟩
            have : n = 0 := by simpa using hn
            subst this
            simpa using hc
        · simp only [ne_eq, hmin, not_false_eq_true, if_true]
          constructor
          · intro h; cases h
          · rintro ⟨n, h1, -, hn, -, -⟩
            simp at hn
            omega
      | cons ch t =>
        have hne : ¬ (min = 0 ∧ i + 1 = i) := by omega
        have hmax' : ∀ M, max.map (· - 1) = some M → min - 1 ≤ M := by
          intro M hM
          cases max with
          | none => simp at hM
          | some M' =>
            simp at hM
            have := hmax M' rfl
            omega
        have hrec := ih (min - 1) (max.map (· - 1)) (i + 1) t c
          (by simp only [List.length_cons] at hfuel; omega) hmax'
        rw [iterations_cons p min max h0 i ch t c]
        simp only [cls_matcher_cons, hne, if_false]
        by_cases hmin : min = 0
        · subst hmin
          simp only [ne_eq, not_true_eq_false, if_false, Bool.or_eq_true, Bool.and_eq_true,
            true_and]
          rw [hrec]
          exact Or.comm
        · simp only [ne_eq, hmin, not_false_eq_true, if_true, Bool.and_eq_true, false_and,
            false_or]
          rw [hrec]


/-- A pattern that starts with `^` is only matched from index 0. -/
theorem test_anchored (r : RegExp) (s : JSString) :
    (RegExp.seq .bol r).test s = r.matcher ⟨0, s⟩ (fun _ => true) := by
  rw [Bool.eq_iff_iff]
  simp only [RegExp.test, RegExp.matcher, List.any_eq_true, List.mem_range, Bool.and_eq_true,
    beq_iff_eq]
  constructor
  · rintro ⟨i, -, rfl, h⟩
    simpa using h
  · intro h
    exact ⟨0, Nat.succ_pos _, rfl, by simpa using h⟩

/-- The quantified class as compiled, whose iteration bound always suffices. -/
theorem rep_cls_matcher (p : CodeUnit → Bool) (min : Nat) (max : Option Nat)
    (hmax : ∀ M, max = some M → min ≤ M) (i : Nat) (rest : JSString) (c : Continuation) :
    (RegExp.rep (.cls p) min max).matcher ⟨i, rest⟩ c = true ↔
      ∃ n, min ≤ n ∧ (∀ M, max = some M → n ≤ M) ∧ n ≤ rest.length ∧
        (∀ ch ∈ rest.take n, p ch = true) ∧ c ⟨i + n, rest.drop n⟩ = true := by
  show repeatMatcher (RegExp.cls p).matcher (min + rest.length + 1) min max ⟨i, rest⟩ c = true ↔ _
  exact repeatMatcher_cls p _ min max i rest c (Nat.lt_succ_self _) hmax

/-- The patterns `/^C{lo,hi}$/`: a length between the bounds, every code unit in `C`. -/
theorem test_bounded (p : CodeUnit → Bool) (lo hi : Nat) (h : lo ≤ hi) (s : JSString) :
    (RegExp.seq .bol (.seq (.rep (.cls p) lo (some hi)) .eol)).test s = true ↔
      lo ≤ s.length ∧ s.length ≤ hi ∧ ∀ c ∈ s, p c = true := by
  rw [test_anchored]
  show (RegExp.rep (.cls p) lo (some hi)).matcher ⟨0, s⟩
    (fun y => RegExp.eol.matcher y (fun _ => true)) = true ↔ _
  rw [rep_cls_matcher p lo (some hi) (by intro M hM; cases hM; exact h)]
  simp only [RegExp.matcher, Option.some.injEq, forall_eq', Bool.and_true, List.isEmpty_eq_true,
    List.drop_eq_nil_iff]
  constructor
  · rintro ⟨n, h1, h2, h3, h4, h5⟩
    have : n = s.length := by omega
    subst this
    refine ⟨h1, h2, ?_⟩
    intro c hc
    exact h4 c (by simpa using hc)
  · rintro ⟨h1, h2, h3⟩
    exact ⟨s.length, h1, h2, le_refl _, by simpa using h3, le_refl _⟩

/-- What `USER_RE.test` decides. -/
theorem test_USER_RE (s : JSString) :
    USER_RE.test s = true ↔ 1 ≤ s.length ∧ s.length ≤ 20 ∧ NoLineTerminator s := by
  unfold USER_RE dot
  rw [test_bounded _ 1 20 (by decide)]
  simp [NoLineTerminator]

/-- What `FNAME_RE.test` decides. -/
theorem test_FNAME_RE (s : JSString) :
    FNAME_RE.test s = true ↔ 1 ≤ s.length ∧ s.length ≤ 100 ∧ NoLineTerminator s := by
  unfold FNAME_RE dot
  rw [test_bounded _ 1 100 (by decide)]
  simp [NoLineTerminator]

/-- What `LNAME_RE.test` decides. -/
theorem test_LNAME_RE (s : JSString) :
    LNAME_RE.test s = true ↔ 1 ≤ s.length ∧ s.length ≤ 100 ∧ NoLineTerminator s := by
  unfold LNAME_RE dot
  rw [test_bounded _ 1 100 (by decide)]
  simp [NoLineTerminator]

/-- What `PASS_RE.test` decides. -/
theorem test_PASS_RE (s : JSString) :
    PASS_RE.test s = true ↔ 8 ≤ s.length ∧ s.length ≤ 20 ∧ NoLineTerminator s := by
  unfold PASS_RE dot
  rw [test_bounded _ 8 20 (by decide)]
  simp [NoLineTerminator]

/-- A literal character consumes exactly its code unit. -/
theorem lit_matcher (chr : Char) (i : Nat) (rest : JSString) (c : Continuation) :
    (lit chr).matcher ⟨i, rest⟩ c = true ↔
      ∃ t, rest = (Fin.ofNat chr.toNat : CodeUnit) :: t ∧ c ⟨i + 1, t⟩ = true := by
  cases rest with
  | nil => simp [lit, cls_matcher_nil]
  | cons ch t =>
    simp only [lit, cls_matcher_cons, Bool.and_eq_true, beq_iff_eq, List.cons.injEq]
    constructor
    · rintro ⟨rfl, h⟩; exact ⟨t, ⟨rfl, rfl⟩, h⟩
    · rintro ⟨t', ⟨rfl, rfl⟩, h⟩; exact ⟨rfl, h⟩

/-- What `EMAIL_RE.test` decides. -/
theorem test_EMAIL_RE (s : JSString) : EMAIL_RE.test s = true ↔ EmailShape s := by
  unfold EMAIL_RE
  rw [test_anchored]
  show (RegExp.rep nonSpace 1 none).matcher ⟨0, s⟩ (fun y =>
    (lit '@').matcher y (fun y => (RegExp.rep nonSpace 1 none).matcher y (fun y =>
      (lit '.').matcher y (fun y => (RegExp.rep nonSpace 1 none).matcher y (fun y =>
        RegExp.eol.matcher y (fun _ => true)))))) = true ↔ _
  unfold nonSpace
  simp only [rep_cls_matcher _ 1 none (by intro M hM; cases hM), lit_matcher]
  simp only [RegExp.matcher, Bool.and_true, List.isEmpty_eq_true, List.drop_eq_nil_iff,
    Bool.not_eq_true', false_implies, implies_true, true_and]
  have hat : utf16 "@" = [(Fin.ofNat '@'.toNat : CodeUnit)] := by decide
  have hdot : utf16 "." = [(Fin.ofNat '.'.toNat : CodeUnit)] := by decide
  unfold EmailShape
  rw [hat, hdot]
  constructor
  · rintro ⟨n, h1, -, h2, h3, t, ht, n1, g1, -, g2, g3, t1, ht1, n2, k1, -, k2, k3, k4⟩
    have hn2 : n2 = t1.length := by omega
    subst hn2
    refine ⟨s.take n, t.take n1, t1, ?_, ?_, ?_, h3, g3, by simpa using k3, ?_⟩
    · intro h
      have := congrArg List.length h
      rw [List.length_take, List.length_nil] at this
      omega
    · intro h
      have := congrArg List.length h
      rw [List.length_take, List.length_nil] at this
      omega
    · intro h
      subst h
      simp at k1
    · have e1 : s = s.take n ++ s.drop n := (List.take_append_drop n s).symm
      have e2 : t = t.take n1 ++ t.drop n1 := (List.take_append_drop n1 t).symm
      rw [ht] at e1
      rw [ht1] at e2
      conv_lhs => rw [e1, e2]
      simp
  · rintro ⟨a, b, c, ha, hb, hc, wa, wb, wc, rfl⟩
    have la : 1 ≤ a.length := List.length_pos.2 ha
    have lb : 1 ≤ b.length := List.length_pos.2 hb
    have lc : 1 ≤ c.length := List.length_pos.2 hc
    refine ⟨a.length, la, by simp, by simp, ?_, b ++ (Fin.ofNat '.'.toNat : CodeUnit) :: c,
      by simp, b.length, lb, by simp, by simp, ?_, c, by simp, c.length, lc, by simp, le_refl _,
      by simpa using wc, le_refl _⟩
    · intro ch hch
      simp only [List.append_assoc, List.take_left'] at hch
      exact wa ch (by simpa using hch)
    · intro ch hch
      simp only [List.take_left'] at hch
      exact wb ch (by simpa using hch)

/-! ## Signup validation -/

/-- The boolean returned by `validateSignup` is the conjunction of its six rules. -/
theorem validateSignup_fst (userName firstName lastName password verify email : JSVal)
    (errors : Errors) :
    (validateSignup userName firstName lastName password verify email errors).1 =
      (USER_RE.test userName.toStr && FNAME_RE.test firstName.toStr &&
        LNAME_RE.test lastName.toStr && PASS_RE.test password.toStr &&
        decide (password = verify) && !(email.truthy && !EMAIL_RE.test email.toStr)) := by
  unfold validateSignup
  split_ifs <;> cases h : email.truthy <;> simp_all

/-- On strings `validateSignup` accepts exactly the submissions the patterns accept. -/
theorem validateSignup_str (userName firstName lastName password verify email : JSString)
    (errors : Errors) :
    (validateSignup (.str userName) (.str firstName) (.str lastName) (.str password)
      (.str verify) (.str email) errors).1 = true ↔
    PatternAccepts userName firstName lastName password verify email := by
  rw [validateSignup_fst]
  simp only [Bool.and_eq_true, JSVal.toStr, test_USER_RE, test_FNAME_RE, test_LNAME_RE,
    test_PASS_RE, decide_eq_true_eq, JSVal.str.injEq, PatternAccepts, and_assoc]
  have hmail : (!((JSVal.str email).truthy && !EMAIL_RE.test email)) = true ↔
      (email = [] ∨ EmailShape email) := by
    rw [← test_EMAIL_RE]
    cases email with
    | nil => simp [JSVal.truthy]
    | cons c t => simp [JSVal.truthy]
  rw [hmail]

/-- C3 (amended): for all strings, `validateSignup` returns true if and only if
userName has 1 to 20 UTF-16 code units, firstName and lastName 1 to 100 and
password 8 to 20, none of them a line terminator, password equals verify, and
email is empty or has the shape non-whitespace+ `@` non-whitespace+ `.`
non-whitespace+. With the other fields valid, a password of length 7 or 21 is
rejected and a password of length 8 or 20 without line terminator is accepted. -/
theorem validateSignup_accepts_iff (userName firstName lastName password verify email : JSString)
    (errors : Errors) :
    ((validateSignup (.str userName) (.str firstName) (.str lastName) (.str password)
        (.str verify) (.str email) errors).1 = true ↔
      PatternAccepts userName firstName lastName password verify email) ∧
    (password.length = 7 ∨ password.length = 21 →
      (validateSignup (.str userName) (.str firstName) (.str lastName) (.str password)
        (.str password) (.str email) errors).1 = false) ∧
    (password.length = 8 ∨ password.length = 20 → NoLineTerminator password →
      (1 ≤ userName.length ∧ userName.length ≤ 20 ∧ NoLineTerminator userName) →
      (1 ≤ firstName.length ∧ firstName.length ≤ 100 ∧ NoLineTerminator firstName) →
      (1 ≤ lastName.length ∧ lastName.length ≤ 100 ∧ NoLineTerminator lastName) →
      (email = [] ∨ EmailShape email) →
      (validateSignup (.str userName) (.str firstName) (.str lastName) (.str password)
        (.str password) (.str email) errors).1 = true) := by
  refine ⟨validateSignup_str _ _ _ _ _ _ _, ?_, ?_⟩
  · intro hlen
    rw [Bool.eq_false_iff]
    intro hacc
    have hp := ((validateSignup_str _ _ _ _ _ _ _).1 hacc).2.2.2.1
    omega
  · intro hlen hnl hu hf hl he
    exact (validateSignup_str _ _ _ _ _ _ _).2 ⟨hu, hf, hl, ⟨by omega, by omega, hnl⟩, rfl, he⟩

/-- C3, worked example: with the other fields valid the seven-unit password `short77`
is rejected and the eight-unit password `Sup3rSec` is accepted. -/
theorem validateSignup_accepts_iff_witness :
    (validateSignup (.str (utf16 "alice")) (.str (utf16 "Alice")) (.str (utf16 "Liddell"))
      (.str (utf16 "short77")) (.str (utf16 "short77")) (.str (utf16 ""))
      ⟨.null, .null, .null, .null, .null, .null, .null, .null⟩).1 = false ∧
    (validateSignup (.str (utf16 "alice")) (.str (utf16 "Alice")) (.str (utf16 "Liddell"))
      (.str (utf16 "Sup3rSec")) (.str (utf16 "Sup3rSec")) (.str (utf16 ""))
      ⟨.null, .null, .null, .null, .null, .null, .null, .null⟩).1 = true :=
  ⟨(validateSignup_accepts_iff (utf16 "alice") (utf16 "Alice") (utf16 "Liddell")
      (utf16 "short77") (utf16 "short77") (utf16 "")
      ⟨.null, .null, .null, .null, .null, .null, .null, .null⟩).2.1 (by decide),
   (validateSignup_accepts_iff (utf16 "alice") (utf16 "Alice") (utf16 "Liddell")
      (utf16 "Sup3rSec") (utf16 "Sup3rSec") (utf16 "")
      ⟨.null, .null, .null, .null, .null, .null, .null, .null⟩).2.2 (by decide)
      ((test_PASS_RE (utf16 "Sup3rSec")).1 (by decide)).2.2
      ((test_USER_RE (utf16 "alice")).1 (by decide))
      ((test_FNAME_RE (utf16 "Alice")).1 (by decide))
      ((test_LNAME_RE (utf16 "Liddell")).1 (by decide)) (Or.inl rfl)⟩

/-- C3 as stated fails: the password `abcd\nefg` has eight characters and every
other field meets the rule of the specification, yet `validateSignup` rejects
the submission, because `.` takes no line terminator. -/
theorem validateSignup_line_terminator :
    SpecAccepts (utf16 "alice") (utf16 "Alice") (utf16 "Liddell") (utf16 "abcd\nefg")
        (utf16 "abcd\nefg") (utf16 "") ∧
      ∀ errors, (validateSignup (.str (utf16 "alice")) (.str (utf16 "Alice"))
        (.str (utf16 "Liddell")) (.str (utf16 "abcd\nefg")) (.str (utf16 "abcd\nefg"))
        (.str (utf16 "")) errors).1 = false := by
  refine ⟨⟨by decide, by decide, by decide, by decide, rfl, Or.inl rfl⟩, ?_⟩
  intro errors
  rw [validateSignup_fst]
  decide

/-- C4 (amended): when userName, firstName and lastName pass their rules, the
password passes the length rule and differs from verify, `validateSignup`
returns false with verifyError "Passwords do not match." and passwordError
empty. -/
theorem validateSignup_mismatch (userName firstName lastName password verify email : JSVal)
    (errors : Errors) (hu : USER_RE.test userName.toStr = true)
    (hf : FNAME_RE.test firstName.toStr = true) (hl : LNAME_RE.test lastName.toStr = true)
    (hp : PASS_RE.test password.toStr = true) (hne : password ≠ verify) :
    (validateSignup userName firstName lastName password verify email errors).1 = false ∧
    (validateSignup userName firstName lastName password verify email errors).2.verifyError =
      .str (utf16 "Passwords do not match.") ∧
    (validateSignup userName firstName lastName password verify email errors).2.passwordError =
      .str (utf16 "") := by
  unfold validateSignup
  simp [hu, hf, hl, hp, hne]

/-- C4, worked example: a valid password with a confirmation that differs. -/
theorem validateSignup_mismatch_witness :
    (validateSignup (.str (utf16 "alice")) (.str (utf16 "Alice")) (.str (utf16 "Liddell"))
        (.str (utf16 "Sup3rSecr3t!")) (.str (utf16 "Sup3rSecret!")) (.str (utf16 "a@b.c"))
        ⟨.null, .null, .null, .null, .null, .null, .null, .null⟩).1 = false ∧
    (validateSignup (.str (utf16 "alice")) (.str (utf16 "Alice")) (.str (utf16 "Liddell"))
        (.str (utf16 "Sup3rSecr3t!")) (.str (utf16 "Sup3rSecret!")) (.str (utf16 "a@b.c"))
        ⟨.null, .null, .null, .null, .null, .null, .null, .null⟩).2.verifyError =
      .str (utf16 "Passwords do not match.") ∧
    (validateSignup (.str (utf16 "alice")) (.str (utf16 "Alice")) (.str (utf16 "Liddell"))
        (.str (utf16 "Sup3rSecr3t!")) (.str (utf16 "Sup3rSecret!")) (.str (utf16 "a@b.c"))
        ⟨.null, .null, .null, .null, .null, .null, .null, .null⟩).2.passwordError =
      .str (utf16 "") :=
  validateSignup_mismatch _ _ _ _ _ _ _ (by decide) (by decide) (by decide) (by decide)
    (by decide)

/-- C4 as stated fails: with valid names, the password `short` and the
confirmation `other` differ, yet verifyError stays empty and the error is
reported through passwordError, because the length rule is tested first. -/
theorem validateSignup_short_mismatch :
    USER_RE.test (utf16 "alice") = true ∧ FNAME_RE.test (utf16 "Alice") = true ∧
    LNAME_RE.test (utf16 "Liddell") = true ∧
    JSVal.str (utf16 "short") ≠ JSVal.str (utf16 "other") ∧
    validateSignup (.str (utf16 "alice")) (.str (utf16 "Alice")) (.str (utf16 "Liddell"))
        (.str (utf16 "short")) (.str (utf16 "other")) (.str (utf16 ""))
        ⟨.str (utf16 "alice"), .str (utf16 ""), .str (utf16 ""), .str (utf16 ""),
          .str (utf16 ""), .str (utf16 ""), .str (utf16 ""), .str (utf16 "")⟩ =
      (false, ⟨.str (utf16 "alice"), .str (utf16 ""), .str (utf16 ""), .str (utf16 ""),
          .str (utf16 ""), .str (utf16 ""), .str (utf16 "Password must be 8–20 characters."),
          .str (utf16 "")⟩) := by
  decide

/-- The empty literal. -/
theorem utf16_empty : utf16 "" = [] := rfl

/-- C5: for every input and every initial `errors`, either `validateSignup`
returns true, every rule passes and the six error fields are empty, or it
returns false and exactly one error field is a non-empty string, the field of
the first failing rule in the order of the code, whatever the later rules do. -/
theorem validateSignup_one_error (userName firstName lastName password verify email : JSVal)
    (errors : Errors) :
    ((validateSignup userName firstName lastName password verify email errors).1 = true ∧
      (∀ b ∈ signupRules userName firstName lastName password verify email, b = true) ∧
      ∀ x ∈ (validateSignup userName firstName lastName password verify email errors).2.fields,
        x = JSVal.str []) ∨
    ((validateSignup userName firstName lastName password verify email errors).1 = false ∧
      ∃ k : Nat, (signupRules userName firstName lastName password verify email)[k]? = some false ∧
        (∀ j : Nat, j < k →
          (signupRules userName firstName lastName password verify email)[j]? = some true) ∧
        (∃ msg, (validateSignup userName firstName lastName password verify email
          errors).2.fields[k]? = some (JSVal.str msg) ∧ msg ≠ []) ∧
        ∀ j : Nat, j ≠ k → ∀ x, (validateSignup userName firstName lastName password verify email
          errors).2.fields[j]? = some x → x = JSVal.str []) := by
  have hm1 : utf16 "Invalid user name." ≠ [] := by decide
  have hm2 : utf16 "Invalid first name." ≠ [] := by decide
  have hm3 : utf16 "Invalid last name." ≠ [] := by decide
  have hm4 : utf16 "Password must be 8–20 characters." ≠ [] := by decide
  have hm5 : utf16 "Passwords do not match." ≠ [] := by decide
  have hm6 : utf16 "Invalid email address." ≠ [] := by decide
  unfold validateSignup signupRules Errors.fields
  simp only [utf16_empty]
  generalize utf16 "Invalid user name." = m1 at hm1 ⊢
  generalize utf16 "Invalid first name." = m2 at hm2 ⊢
  generalize utf16 "Invalid last name." = m3 at hm3 ⊢
  generalize utf16 "Password must be 8–20 characters." = m4 at hm4 ⊢
  generalize utf16 "Passwords do not match." = m5 at hm5 ⊢
  generalize utf16 "Invalid email address." = m6 at hm6 ⊢
  split_ifs with h1 h2 h3 h4 h5 h6
  · right
    refine ⟨rfl, 0, by simpa using h1, by intro j hj; omega, ⟨m1, by simp, hm1⟩, ?_⟩
    intro j hj x hx
    rcases j with _ | _ | _ | _ | _ | _ | j <;> simp_all
  · right
    refine ⟨rfl, 1, by simpa using h2, ?_, ⟨m2, by simp, hm2⟩, ?_⟩
    · intro j hj
      interval_cases j
      simp_all
    · intro j hj x hx
      rcases j with _ | _ | _ | _ | _ | _ | j <;> simp_all
  · right
    refine ⟨rfl, 2, by simpa using h3, ?_, ⟨m3, by simp, hm3⟩, ?_⟩
    · intro j hj
      interval_cases j <;> simp_all
    · intro j hj x hx
      rcases j with _ | _ | _ | _ | _ | _ | j <;> simp_all
  · right
    refine ⟨rfl, 3, by simpa using h4, ?_, ⟨m4, by simp, hm4⟩, ?_⟩
    · intro j hj
      interval_cases j <;> simp_all
    · intro j hj x hx
      rcases j with _ | _ | _ | _ | _ | _ | j <;> simp_all
  · right
    refine ⟨rfl, 4, by simpa using h5, ?_, ⟨m5, by simp, hm5⟩, ?_⟩
    · intro j hj
      interval_cases j <;> simp_all
    · intro j hj x hx
      rcases j with _ | _ | _ | _ | _ | _ | j <;> simp_all
  · right
    refine ⟨rfl, 5, by simpa using h6, ?_, ⟨m6, by simp, hm6⟩, ?_⟩
    · intro j hj
      interval_cases j <;> simp_all
    · intro j hj x hx
      rcases j with _ | _ | _ | _ | _ | _ | j <;> simp_all
  · left
    refine ⟨rfl, ?_, ?_⟩
    · intro b hb
      simp only [List.mem_cons, List.mem_singleton, List.not_mem_nil, or_false] at hb
      rcases hb with rfl | rfl | rfl | rfl | rfl | rfl <;> cases hq : email.truthy <;> simp_all
    · intro x hx
      simp only [List.mem_cons, List.mem_singleton, List.not_mem_nil, or_false] at hx
      rcases hx with rfl | rfl | rfl | rfl | rfl | rfl <;> rfl

/-! ## Request handlers -/

/-- C1: when `getUserByUserName` returns a user `u` and the hash-compare of the
password against `u.password` returns true, `handleLoginRequest` regenerates the
session, leaves `userId` equal to `u._id` and issues exactly one redirect, to
`/benefits` for an admin and to `/dashboard` otherwise; no page is rendered. -/
theorem handleLoginRequest_success {σ : Type} (dao : UserDAO σ) (bcrypt : Bcrypt) (db : σ)
    (session : Session) (body : LoginBody) (u : User)
    (hu : dao.getUserByUserName body.userName db = .ok (some u))
    (hm : bcrypt.compare body.password u.password = .ok true) :
    (handleLoginRequest dao bcrypt db session body).session.userId = some u._id ∧
    (handleLoginRequest dao bcrypt db session body).trace =
      [.getUserByUserName body.userName, .bcryptCompare body.password u.password, .regenerate,
        .redirect (if u.isAdmin then "/benefits" else "/dashboard")] := by
  simp [handleLoginRequest, hu, hm]

/-- C1, worked example: the login of the example user. -/
theorem handleLoginRequest_success_witness :
    (handleLoginRequest (specDAO demoAssignId noFaults) demoBcrypt demoStore ⟨none⟩
        ⟨.str (utf16 "alice"), .str (utf16 "Sup3rSecr3t!")⟩).session.userId = some alice._id ∧
    (handleLoginRequest (specDAO demoAssignId noFaults) demoBcrypt demoStore ⟨none⟩
        ⟨.str (utf16 "alice"), .str (utf16 "Sup3rSecr3t!")⟩).trace =
      [.getUserByUserName (.str (utf16 "alice")),
        .bcryptCompare (.str (utf16 "Sup3rSecr3t!")) alice.password, .regenerate,
        .redirect (if alice.isAdmin then "/benefits" else "/dashboard")] :=
  handleLoginRequest_success (specDAO demoAssignId noFaults) demoBcrypt demoStore ⟨none⟩
    ⟨.str (utf16 "alice"), .str (utf16 "Sup3rSecr3t!")⟩ alice rfl rfl

/-- C2: a failed login renders the login page with an empty password field and
leaves the session as it was, without regenerating it. With no user found the
message is "Invalid username" and bcrypt is not called; with a user found and
a failed compare the message is "Invalid password". -/
theorem handleLoginRequest_failure {σ : Type} (dao : UserDAO σ) (bcrypt : Bcrypt) (db : σ)
    (session : Session) (body : LoginBody) :
    (dao.getUserByUserName body.userName db = .ok none →
      handleLoginRequest dao bcrypt db session body =
        ⟨session, [.getUserByUserName body.userName,
          .render "login" (.login body.userName (.str []) (.str (utf16 "Invalid username")))]⟩) ∧
    (∀ u, dao.getUserByUserName body.userName db = .ok (some u) →
      bcrypt.compare body.password u.password = .ok false →
      handleLoginRequest dao bcrypt db session body =
        ⟨session, [.getUserByUserName body.userName, .bcryptCompare body.password u.password,
          .render "login" (.login body.userName (.str []) (.str (utf16 "Invalid password")))]⟩) := by
  constructor
  · intro h
    simp [handleLoginRequest, h, utf16_empty]
  · intro u hu hm
    simp [handleLoginRequest, hu, hm, utf16_empty]

/-- C2, worked example: an unknown user name, and a wrong password. -/
theorem handleLoginRequest_failure_witness :
    handleLoginRequest (specDAO demoAssignId noFaults) demoBcrypt demoStore ⟨none⟩
        ⟨.str (utf16 "bob"), .str (utf16 "Sup3rSecr3t!")⟩ =
      ⟨⟨none⟩, [.getUserByUserName (.str (utf16 "bob")),
        .render "login" (.login (.str (utf16 "bob")) (.str []) (.str (utf16 "Invalid username")))]⟩ ∧
    handleLoginRequest (specDAO demoAssignId noFaults) demoBcrypt demoStore ⟨none⟩
        ⟨.str (utf16 "alice"), .str (utf16 "guess")⟩ =
      ⟨⟨none⟩, [.getUserByUserName (.str (utf16 "alice")),
        .bcryptCompare (.str (utf16 "guess")) alice.password,
        .render "login" (.login (.str (utf16 "alice")) (.str []) (.str (utf16 "Invalid password")))]⟩ :=
  ⟨(handleLoginRequest_failure (specDAO demoAssignId noFaults) demoBcrypt demoStore ⟨none⟩
      ⟨.str (utf16 "bob"), .str (utf16 "Sup3rSecr3t!")⟩).1 rfl,
   (handleLoginRequest_failure (specDAO demoAssignId noFaults) demoBcrypt demoStore ⟨none⟩
      ⟨.str (utf16 "alice"), .str (utf16 "guess")⟩).2 alice rfl rfl⟩

/-- The test `if (req.session.userId)` passes with `id` exactly when the session
holds `id` and `id` is truthy. -/
theorem truthyUserId_eq_some_iff (session : Session) (id : Id) :
    session.truthyUserId = some id ↔ session.userId = some id ∧ id.truthy = true := by
  unfold Session.truthyUserId
  cases hs : session.userId with
  | none => simp
  | some userId =>
    by_cases ht : userId.truthy = true
    · simp only [ht, if_true, Option.some.injEq]
      constructor
      · rintro rfl; exact ⟨rfl, ht⟩
      · rintro ⟨h, -⟩; exact h
    · simp only [ht, if_false, Option.some.injEq, reduceCtorEq, false_iff, not_and]
      rintro rfl
      exact ht

/-- The test `if (req.session.userId)` fails exactly when the session holds no
truthy userId. -/
theorem truthyUserId_eq_none_iff (session : Session) :
    session.truthyUserId = none ↔ ∀ id, session.userId = some id → id.truthy = false := by
  unfold Session.truthyUserId
  cases hs : session.userId with
  | none => simp
  | some userId =>
    by_cases ht : userId.truthy = true
    · simp only [ht, if_true, Option.some.injEq, reduceCtorEq, false_iff]
      intro h
      have := h userId rfl
      rw [ht] at this
      cases this
    · have hf : userId.truthy = false := by simpa using ht
      simp only [hf, Bool.false_eq_true, if_false, true_iff]
      intro id hid
      cases hid
      exact hf

/-- C6: `isAdminUserMiddleware` calls `next()` if and only if the session holds a
userId (set and truthy, as `if (req.session.userId)` tests it) and `getUserById`
for that id yields a user whose admin flag is set; otherwise it redirects to
`/login` and does not call `next()`. It never does both, it leaves the session
as it was, and when the session holds no truthy userId it does not consult the
store. -/
theorem isAdminUserMiddleware_next_iff {σ : Type} (dao : UserDAO σ) (db : σ) (session : Session) :
    (Event.next ∈ (isAdminUserMiddleware dao db session).trace ↔
      ∃ id u, session.userId = some id ∧ id.truthy = true ∧
        (dao.getUserById id db).2 = some u ∧ u.isAdmin = true) ∧
    (Event.next ∉ (isAdminUserMiddleware dao db session).trace →
      (isAdminUserMiddleware dao db session).trace.filter Event.isPage = [.redirect "/login"]) ∧
    (Event.next ∈ (isAdminUserMiddleware dao db session).trace →
      (isAdminUserMiddleware dao db session).trace.filter Event.isPage = []) ∧
    ((∀ id, session.userId = some id → id.truthy = false) →
      (isAdminUserMiddleware dao db session).trace = [.redirect "/login"]) ∧
    (isAdminUserMiddleware dao db session).session = session := by
  unfold isAdminUserMiddleware
  cases hs : session.truthyUserId with
  | none =>
    have hnone := (truthyUserId_eq_none_iff session).1 hs
    simp only [List.mem_singleton, reduceCtorEq, false_iff, not_exists, not_and,
      not_false_eq_true, forall_true_left, false_implies, implies_true, and_true, true_and]
    refine ⟨?_, by simp [Event.isPage]⟩
    intro id u hid ht
    rw [hnone id hid] at ht
    cases ht
  | some id =>
    obtain ⟨hid, ht⟩ := (truthyUserId_eq_some_iff session id).1 hs
    have hfalsy : ¬ ∀ id', session.userId = some id' → id'.truthy = false := by
      intro h
      rw [h id hid] at ht
      cases ht
    have hex : ∀ (P : User → Prop),
        (∃ id' u, session.userId = some id' ∧ id'.truthy = true ∧
          (dao.getUserById id' db).2 = some u ∧ P u) ↔
        ∃ u, (dao.getUserById id db).2 = some u ∧ P u := by
      intro P
      constructor
      · rintro ⟨id', u, h1, -, h3, h4⟩
        rw [hid] at h1
        cases h1
        exact ⟨u, h3, h4⟩
      · rintro ⟨u, h3, h4⟩
        exact ⟨id, u, hid, ht, h3, h4⟩
    rw [hex (fun u => u.isAdmin = true)]
    rcases hg : dao.getUserById id db with ⟨err, _ | user⟩
    · simp [hg, Event.isPage, hfalsy]
    · cases ha : user.isAdmin <;> simp [hg, Event.isPage, ha, hfalsy]

/-- The admin gate on a falsy userId: with the identifier 0 in the session the
store is not consulted and the request is redirected, even when an admin is
stored under that identifier. -/
theorem isAdminUserMiddleware_falsy_id :
    isAdminUserMiddleware (specDAO demoAssignId noFaults)
        ⟨[{ alice with _id := ⟨0⟩, isAdmin := true }]⟩ ⟨some ⟨0⟩⟩ =
      ⟨⟨some ⟨0⟩⟩, [.redirect "/login"]⟩ := by
  decide

/-- C7: for every session, `displayLogoutPage` destroys the session and redirects
to `/`, and `displayWelcomePage` on the session that results redirects to
`/login` without a store call or a rendered page. -/
theorem displayLogoutPage_then_welcome {σ : Type} (dao : UserDAO σ) (db : σ) (session : Session) :
    displayLogoutPage session = ⟨⟨none⟩, [.destroy, .redirect "/"]⟩ ∧
    displayWelcomePage dao db (displayLogoutPage session).session =
      ⟨⟨none⟩, [.redirect "/login"]⟩ := by
  simp [displayLogoutPage, displayWelcomePage, Session.truthyUserId]

/-- C9, the failing case: with a truthy userId in the session and a
`getUserById` that calls back with neither an error nor a document,
`displayWelcomePage` raises a TypeError on `doc.userId = ...` and renders
nothing. -/
theorem displayWelcomePage_absent {σ : Type} (dao : UserDAO σ) (db : σ) (session : Session)
    (userId : Id) (hs : session.userId = some userId) (ht : userId.truthy = true)
    (hg : dao.getUserById userId db = (none, none)) :
    displayWelcomePage dao db session = ⟨session, [.getUserById userId, .typeError]⟩ := by
  simp [displayWelcomePage, (truthyUserId_eq_some_iff session userId).2 ⟨hs, ht⟩, hg]

/-- C9, failing input: a session whose userId 2 names no record of the store. -/
theorem displayWelcomePage_absent_witness :
    displayWelcomePage (specDAO demoAssignId noFaults) demoStore ⟨some ⟨2⟩⟩ =
      ⟨⟨some ⟨2⟩⟩, [.getUserById ⟨2⟩, .typeError]⟩ :=
  displayWelcomePage_absent (specDAO demoAssignId noFaults) demoStore ⟨some ⟨2⟩⟩ ⟨2⟩ rfl rfl
    rfl

/-- C10, the failing case: with a truthy userId in the session, when
`getUserById` reports an error and no document, `isAdminUserMiddleware` drops
the error and redirects to `/login`; `next(err)` is not called. -/
theorem isAdminUserMiddleware_store_error {σ : Type} (dao : UserDAO σ) (db : σ)
    (session : Session) (userId : Id) (err : JSError) (hs : session.userId = some userId)
    (ht : userId.truthy = true) (hg : dao.getUserById userId db = (some err, none)) :
    isAdminUserMiddleware dao db session =
      ⟨session, [.getUserById userId, .redirect "/login"]⟩ := by
  simp [isAdminUserMiddleware, (truthyUserId_eq_some_iff session userId).2 ⟨hs, ht⟩, hg]

/-- C10, failing input: an admin gate request during which the store is down. -/
theorem isAdminUserMiddleware_store_error_witness :
    isAdminUserMiddleware (specDAO demoAssignId ⟨none, some ⟨"connection lost"⟩, none⟩)
        demoStore ⟨some ⟨1⟩⟩ =
      ⟨⟨some ⟨1⟩⟩, [.getUserById ⟨1⟩, .redirect "/login"]⟩ :=
  isAdminUserMiddleware_store_error (specDAO demoAssignId ⟨none, some ⟨"connection lost"⟩, none⟩)
    demoStore ⟨some ⟨1⟩⟩ ⟨1⟩ ⟨"connection lost"⟩ rfl rfl rfl

/-- The welcome page with a document found: the dashboard is rendered with the
document and the userId of the session. -/
theorem displayWelcomePage_found {σ : Type} (dao : UserDAO σ) (db : σ) (session : Session)
    (userId : Id) (doc : User) (hs : session.userId = some userId) (ht : userId.truthy = true)
    (hg : dao.getUserById userId db = (none, some doc)) :
    displayWelcomePage dao db session =
      ⟨session, [.getUserById userId, .render "dashboard" (.dashboard doc userId)]⟩ := by
  simp [displayWelcomePage, (truthyUserId_eq_some_iff session userId).2 ⟨hs, ht⟩, hg]

/-- The welcome page without a truthy userId: a redirect to `/login` and no
store call. -/
theorem displayWelcomePage_anonymous {σ : Type} (dao : UserDAO σ) (db : σ) (session : Session)
    (hs : ∀ id, session.userId = some id → id.truthy = false) :
    displayWelcomePage dao db session = ⟨session, [.redirect "/login"]⟩ := by
  simp [displayWelcomePage, (truthyUserId_eq_none_iff session).2 hs]

/-- The welcome page forwards a store error to `next(err)` and writes no page. -/
theorem displayWelcomePage_store_error {σ : Type} (dao : UserDAO σ) (db : σ) (session : Session)
    (userId : Id) (err : JSError) (doc : Option User) (hs : session.userId = some userId)
    (ht : userId.truthy = true) (hg : dao.getUserById userId db = (some err, doc)) :
    displayWelcomePage dao db session = ⟨session, [.getUserById userId, .nextErr err]⟩ := by
  simp [displayWelcomePage, (truthyUserId_eq_some_iff session userId).2 ⟨hs, ht⟩, hg]

/-- The login handler forwards a store error to `next(err)` and writes no page. -/
theorem handleLoginRequest_store_error {σ : Type} (dao : UserDAO σ) (bcrypt : Bcrypt) (db : σ)
    (session : Session) (body : LoginBody) (err : JSError)
    (hg : dao.getUserByUserName body.userName db = .error err) :
    handleLoginRequest dao bcrypt db session body =
      ⟨session, [.getUserByUserName body.userName, .nextErr err]⟩ := by
  simp [handleLoginRequest, hg]

/-- The signup handler forwards an error of the lookup or of the insert to
`next(err)` and writes no page. -/
theorem handleSignup_store_error {σ : Type} (dao : UserDAO σ) (bcrypt : Bcrypt)
    (alloc : AllocationsEnv) (db : σ) (session : Session) (body : SignupBody) (err : JSError)
    (hv : ∀ errors, (validateSignup body.userName body.firstName body.lastName body.password
      body.verify body.email errors).1 = true) :
    (dao.getUserByUserName body.userName db = .error err →
      (handleSignup dao bcrypt alloc db session body).1 =
        ⟨session, [.getUserByUserName body.userName, .nextErr err]⟩) ∧
    (∀ hashedPassword doc db', dao.getUserByUserName body.userName db = .ok none →
      bcrypt.hash body.password 10 = .ok hashedPassword →
      dao.addUser body.userName body.firstName body.lastName hashedPassword body.email db =
        ((some err, doc), db') →
      (handleSignup dao bcrypt alloc db session body).1 =
        ⟨session, [.getUserByUserName body.userName, .bcryptHash body.password 10,
          .addUser body.userName body.firstName body.lastName hashedPassword body.email,
          .nextErr err]⟩) := by
  constructor
  · intro hg
    unfold handleSignup
    simp only
    split
    · rename_i hf
      have hacc := congrArg Prod.fst hf
      rw [hv] at hacc
      cases hacc
    · simp [hg]
  · intro hashedPassword doc db' hg hh ha
    unfold handleSignup
    simp only
    split
    · rename_i hf
      have hacc := congrArg Prod.fst hf
      rw [hv] at hacc
      cases hacc
    · simp [hg, hh, ha]

/-! ## The session invariant -/

/-- The boolean returned by `validateSignup` does not depend on the `errors` passed in. -/
theorem validateSignup_fst_indep (userName firstName lastName password verify email : JSVal)
    (e₁ e₂ : Errors) :
    (validateSignup userName firstName lastName password verify email e₁).1 =
      (validateSignup userName firstName lastName password verify email e₂).1 := by
  rw [validateSignup_fst, validateSignup_fst]

/-- A signup leaves a userId it did not find only after a validated insert. -/
theorem handleSignup_userId {σ : Type} (dao : UserDAO σ) (bcrypt : Bcrypt)
    (alloc : AllocationsEnv) (db : σ) (session : Session) (body : SignupBody) (j : Id)
    (h : (handleSignup dao bcrypt alloc db session body).1.session.userId = some j) :
    session.userId = some j ∨
      ((∀ errors, (validateSignup body.userName body.firstName body.lastName body.password
          body.verify body.email errors).1 = true) ∧
        ∃ hashedPassword u, bcrypt.hash body.password 10 = .ok hashedPassword ∧
          dao.addUser body.userName body.firstName body.lastName hashedPassword body.email db =
            ((none, some u), (handleSignup dao bcrypt alloc db session body).2) ∧
          u._id = j) := by
  unfold handleSignup at h ⊢
  simp only at h ⊢
  split at h
  · left; exact h
  · rename_i errs hv
    split at h
    · left; exact h
    · left; exact h
    · split at h
      · left; exact h
      · rename_i hashed hh
        split at h
        · left; exact h
        · left; exact h
        · rename_i user db' ha
          right
          refine ⟨?_, hashed, user, hh, ha, ?_⟩
          · intro errors
            rw [validateSignup_fst_indep _ _ _ _ _ _ errors, hv]
          · simpa using h

/-- A login leaves a userId it did not find only after a successful compare. -/
theorem handleLoginRequest_userId {σ : Type} (dao : UserDAO σ) (bcrypt : Bcrypt) (db : σ)
    (session : Session) (body : LoginBody) (j : Id)
    (h : (handleLoginRequest dao bcrypt db session body).session.userId = some j) :
    session.userId = some j ∨
      ∃ u, dao.getUserByUserName body.userName db = .ok (some u) ∧
        bcrypt.compare body.password u.password = .ok true ∧ u._id = j := by
  unfold handleLoginRequest at h
  simp only at h
  split at h
  · left; exact h
  · left; exact h
  · rename_i user hu
    split at h
    · left; exact h
    · left; exact h
    · rename_i hm
      right
      exact ⟨user, hu, hm, by simpa using h⟩

/-- The admin gate does not touch the session. -/
theorem isAdminUserMiddleware_session {σ : Type} (dao : UserDAO σ) (db : σ) (session : Session) :
    (isAdminUserMiddleware dao db session).session = session := by
  unfold isAdminUserMiddleware
  repeat' split
  all_goals rfl

/-- The login gate does not touch the session. -/
theorem isLoggedInMiddleware_session (session : Session) :
    (isLoggedInMiddleware session).session = session := by
  unfold isLoggedInMiddleware
  split <;> rfl

/-- The welcome page does not touch the session. -/
theorem displayWelcomePage_session {σ : Type} (dao : UserDAO σ) (db : σ) (session : Session) :
    (displayWelcomePage dao db session).session = session := by
  unfold displayWelcomePage
  repeat' split
  all_goals rfl

/-- A user returned by the lookup is a record of the store. -/
theorem specDAO_lookup_mem (assignId : List User → Id) (faults : Faults) (userName : JSVal)
    (db : Store) (u : User)
    (h : (specDAO assignId faults).getUserByUserName userName db = .ok (some u)) :
    u ∈ db.users := by
  unfold specDAO at h
  simp only at h
  split at h
  · cases h
  · injection h with h
    exact List.mem_of_find?_eq_some h

/-- A successful `addUser` leaves the new record in the store and keeps the others. -/
theorem specDAO_addUser_mem (assignId : List User → Id) (faults : Faults)
    (userName firstName lastName : JSVal) (password : JSString) (email : JSVal)
    (db db' : Store) (u : User)
    (h : (specDAO assignId faults).addUser userName firstName lastName password email db =
      ((none, some u), db')) :
    u ∈ db'.users ∧ ∀ v ∈ db.users, v ∈ db'.users := by
  unfold specDAO at h
  simp only at h
  split at h
  · simp at h
  · simp only [Prod.mk.injEq, Option.some.injEq, true_and] at h
    obtain ⟨rfl, rfl⟩ := h
    exact ⟨by simp, fun v hv => List.mem_append_left _ hv⟩

/-- The accessor `addUser` deletes nothing. -/
theorem specDAO_addUser_mono (assignId : List User → Id) (faults : Faults)
    (userName firstName lastName : JSVal) (password : JSString) (email : JSVal)
    (db : Store) (v : User) (hv : v ∈ db.users) :
    v ∈ ((specDAO assignId faults).addUser userName firstName lastName password email db).2.users := by
  unfold specDAO
  simp only
  split
  · exact hv
  · simp [hv]

/-- The handler `handleSignup` deletes nothing. -/
theorem handleSignup_store_mono (assignId : List User → Id) (faults : Faults) (bcrypt : Bcrypt)
    (alloc : AllocationsEnv) (db : Store) (session : Session) (body : SignupBody) (v : User)
    (hv : v ∈ db.users) :
    v ∈ (handleSignup (specDAO assignId faults) bcrypt alloc db session body).2.users := by
  unfold handleSignup
  simp only
  split
  · exact hv
  · split
    · exact hv
    · exact hv
    · split
      · exact hv
      · rename_i hashed hh
        have := specDAO_addUser_mono assignId faults body.userName body.firstName body.lastName
          hashed body.email db v hv
        split <;> rename_i ha <;> rw [ha] at this <;> exact this

/-- No request deletes a record. -/
theorem step_store_mono (assignId : List User → Id) (st : SysState) (inp : Request × StepEnv)
    (v : User) (hv : v ∈ st.store.users) : v ∈ (step assignId st inp).store.users := by
  unfold step
  simp only
  split
  all_goals first
    | exact hv
    | exact handleSignup_store_mono assignId _ _ _ _ _ _ v hv

/-- Only a successful login or signup writes a userId. -/
theorem step_userId (assignId : List User → Id) (st : SysState) (inp : Request × StepEnv) (j : Id)
    (h : (step assignId st inp).session.userId = some j) :
    st.session.userId = some j ∨ LoginWrites assignId st inp j ∨ SignupWrites assignId st inp j := by
  rcases hreq : inp.1 with _ | _ | _ | body | _ | _ | body | _
  · left
    simpa [step, hreq, isAdminUserMiddleware_session] using h
  · left
    simpa [step, hreq, isLoggedInMiddleware_session] using h
  · left
    simpa [step, hreq, displayLoginPage] using h
  · have h' : (handleLoginRequest (specDAO assignId inp.2.faults) inp.2.bcrypt st.store
        st.session body).session.userId = some j := by
      simpa [step, hreq] using h
    rcases handleLoginRequest_userId _ _ _ _ _ _ h' with h0 | ⟨u, hu, hm, hj⟩
    · left; exact h0
    · right; left
      exact ⟨body, u, hreq, hu, hm, hj⟩
  · simp [step, hreq, displayLogoutPage] at h
  · left
    simpa [step, hreq, displaySignupPage] using h
  · have hstore : (step assignId st inp).store = (handleSignup (specDAO assignId inp.2.faults)
        inp.2.bcrypt inp.2.alloc st.store st.session body).2 := by
      simp [step, hreq]
    have h' : (handleSignup (specDAO assignId inp.2.faults) inp.2.bcrypt inp.2.alloc st.store
        st.session body).1.session.userId = some j := by
      simpa [step, hreq] using h
    rcases handleSignup_userId _ _ _ _ _ _ _ h' with h0 | ⟨hv, hashed, u, hh, ha, hj⟩
    · left; exact h0
    · right; right
      refine ⟨body, hashed, u, hreq, hv, hh, ?_, ?_, hj⟩
      · rw [hstore]; exact ha
      · rw [hstore]
        exact (specDAO_addUser_mem _ _ _ _ _ _ _ _ _ _ ha).1
  · left
    simpa [step, hreq, displayWelcomePage_session] using h

/-- Handling one more request. -/
theorem run_snoc (assignId : List User → Id) (st : SysState) (inps : List (Request × StepEnv))
    (inp : Request × StepEnv) :
    run assignId st (inps ++ [inp]) = step assignId (run assignId st inps) inp := by
  simp [run, List.foldl_append]

/-- The invariant along a run, by induction on the requests handled. -/
theorem run_userId (assignId : List User → Id) (store : Store) :
    ∀ (inps : List (Request × StepEnv)) (i : Id),
      (run assignId ⟨store, ⟨none⟩⟩ inps).session.userId = some i →
      (∃ u ∈ (run assignId ⟨store, ⟨none⟩⟩ inps).store.users, u._id = i) ∧
      ∃ pre inp post, inps = pre ++ inp :: post ∧
        (LoginWrites assignId (run assignId ⟨store, ⟨none⟩⟩ pre) inp i ∨
          SignupWrites assignId (run assignId ⟨store, ⟨none⟩⟩ pre) inp i) := by
  intro inps
  induction inps using List.reverseRecOn with
  | nil =>
    intro i h
    simp [run] at h
  | append_singleton inps inp ih =>
    intro i h
    rw [run_snoc] at h ⊢
    rcases step_userId assignId _ inp i h with h0 | hl | hs
    · obtain ⟨⟨u, hu, hi⟩, pre, inp', post, hsplit, hw⟩ := ih i h0
      refine ⟨⟨u, step_store_mono assignId _ inp u hu, hi⟩, pre, inp', post ++ [inp], ?_, hw⟩
      rw [hsplit]
      simp
    · refine ⟨?_, inps, inp, [], rfl, Or.inl hl⟩
      obtain ⟨body, u, -, hu, -, hi⟩ := hl
      exact ⟨u, step_store_mono assignId _ inp u (specDAO_lookup_mem _ _ _ _ _ hu), hi⟩
    · refine ⟨?_, inps, inp, [], rfl, Or.inr hs⟩
      obtain ⟨body, hashed, u, -, -, -, -, hmem, hi⟩ := hs
      exact ⟨u, hmem, hi⟩

/-- C8: in every state reached from a session without userId by requests to the
entry points of `SessionHandler`, a userId held by the session is the `_id` of a
record of the store and was written by a login whose hash-compare succeeded or
by a signup that passed validation and inserted that record; and no step other
than those two writes a userId. -/
theorem session_userId_authenticated (assignId : List User → Id) (store : Store)
    (inps : List (Request × StepEnv)) (i : Id)
    (h : (run assignId ⟨store, ⟨none⟩⟩ inps).session.userId = some i) :
    (∃ u ∈ (run assignId ⟨store, ⟨none⟩⟩ inps).store.users, u._id = i) ∧
    (∃ pre inp post, inps = pre ++ inp :: post ∧
      (LoginWrites assignId (run assignId ⟨store, ⟨none⟩⟩ pre) inp i ∨
        SignupWrites assignId (run assignId ⟨store, ⟨none⟩⟩ pre) inp i)) ∧
    (∀ (st : SysState) (inp : Request × StepEnv) (j : Id),
      (step assignId st inp).session.userId = some j →
        st.session.userId = some j ∨ LoginWrites assignId st inp j ∨
          SignupWrites assignId st inp j) := by
  have key := run_userId assignId store inps i h
  exact ⟨key.1, key.2, fun st inp j hj => step_userId assignId st inp j hj⟩

/-- C8, worked example: after a signup, a logout and a login of the example user
the session holds the identifier assigned at signup. -/
theorem session_userId_authenticated_witness :
    (run demoAssignId ⟨⟨[]⟩, ⟨none⟩⟩ demoRequests).session.userId = some ⟨1⟩ ∧
    (∃ u ∈ (run demoAssignId ⟨⟨[]⟩, ⟨none⟩⟩ demoRequests).store.users, u._id = ⟨1⟩) ∧
    (∃ pre inp post, demoRequests = pre ++ inp :: post ∧
      (LoginWrites demoAssignId (run demoAssignId ⟨⟨[]⟩, ⟨none⟩⟩ pre) inp ⟨1⟩ ∨
        SignupWrites demoAssignId (run demoAssignId ⟨⟨[]⟩, ⟨none⟩⟩ pre) inp ⟨1⟩)) :=
  ⟨by decide,
    (session_userId_authenticated demoAssignId ⟨[]⟩ demoRequests ⟨1⟩ (by decide)).1,
    (session_userId_authenticated demoAssignId ⟨[]⟩ demoRequests ⟨1⟩ (by decide)).2.1⟩

end NodeGoat
